import Mathlib

/-!
Verification development for the financial Q&A retrieval pipeline
(`src/core/financial_agent.py`, `src/core/vector_store.py`,
`src/models/schemas.py`).

The embedding models Python values and semantics explicitly:
ASCII string operations mirror the `str` methods used by the code,
`jsonLoads` mirrors the strict behaviour of `json.loads` (success and
failure cases), and dynamically-typed state fields are modelled by a
`Json` value type.  External collaborators (the chat model, the
sentence-transformer encoder and the FAISS nearest-neighbour kernel)
are universally quantified oracle functions, so theorems hold for every
behaviour of those collaborators.
-/

namespace FinRag

/-- Python value type for dynamically-typed data produced by `json.loads`.
Numbers keep their source lexeme, which is enough because no claim
inspects numeric values. -/
inductive Json where
  | null : Json
  | bool : Bool → Json
  | num : String → Json
  | str : String → Json
  | arr : List Json → Json
  | obj : List (String × Json) → Json

/-- Whitespace characters stripped by the Python `str.strip` method. -/
def pyWsChar (c : Char) : Bool :=
  c = ' ' || c = '\t' || c = '\n' || c = '\r' || c.toNat = 11 || c.toNat = 12

/-- Drop leading Python whitespace from a character list. -/
def dropWsLeft (cs : List Char) : List Char := cs.dropWhile pyWsChar

/-- Python `str.strip()` on a character list. -/
def pyStripList (cs : List Char) : List Char :=
  ((cs.dropWhile pyWsChar).reverse.dropWhile pyWsChar).reverse

/-- Python `str.strip()`. -/
def pyStrip (s : String) : String := ⟨pyStripList s.data⟩

/-- Python `str.lower()` (ASCII, which is all the pipeline compares). -/
def pyLower (s : String) : String := ⟨s.data.map Char.toLower⟩

/-- Python `str.startswith(p)`. -/
def pyStartsWith (s p : String) : Bool := p.data.isPrefixOf s.data

/-- Python slicing `s[:n]` (by code points). -/
def strTake (s : String) (n : Nat) : String := ⟨s.data.take n⟩

/-- Python slicing `s[n:]` (by code points). -/
def strDrop (s : String) (n : Nat) : String := ⟨s.data.drop n⟩

/-- Python `len(s)` (code points). -/
def strLen (s : String) : Nat := s.data.length

/-- Replace every occurrence of `pat` in `hay`, scanning left to right,
as Python `str.replace` does.  Fuelled by the length of `hay`; each step
consumes at least one character, so the fuel never runs out when called
through `pyReplace`. -/
def pyReplaceAux (fuel : Nat) (hay pat rep : List Char) : List Char :=
  match fuel, hay with
  | 0, rest => rest
  | Nat.succ _, [] => []
  | Nat.succ fuel, c :: rest =>
      if pat.isPrefixOf (c :: rest) then
        rep ++ pyReplaceAux fuel ((c :: rest).drop pat.length) pat rep
      else
        c :: pyReplaceAux fuel rest pat rep

/-- Python `s.replace(pat, rep)` for a non-empty pattern. -/
def pyReplace (s pat rep : String) : String :=
  if pat.data.isEmpty then s
  else ⟨pyReplaceAux s.data.length s.data pat.data rep.data⟩

/-- Split at the first occurrence of `pat`, returning the text before
and after it, or `none` when `pat` does not occur. -/
def splitFirst (hay pat : List Char) : Option (List Char × List Char) :=
  match hay with
  | [] => if pat.isEmpty then some ([], []) else none
  | c :: rest =>
      if pat.isPrefixOf (c :: rest) then some ([], (c :: rest).drop pat.length)
      else
        match splitFirst rest pat with
        | some (b, a) => some (c :: b, a)
        | none => none

/-- Python `pat in hay` for strings. -/
def listContainsSub (hay pat : List Char) : Bool :=
  (splitFirst hay pat).isSome

/-- Python `pat in hay` on `String`. -/
def pyContains (hay pat : String) : Bool := listContainsSub hay.data pat.data

/-- Python `hay.split(pat)` for a non-empty separator, fuelled by the
length of `hay`. -/
def pySplitAux (fuel : Nat) (hay pat : List Char) : List (List Char) :=
  match fuel with
  | 0 => [hay]
  | Nat.succ fuel =>
      match splitFirst hay pat with
      | some (b, a) => b :: pySplitAux fuel a pat
      | none => [hay]

/-- Python `s.split(pat)` for a non-empty separator. -/
def pySplit (s pat : String) : List String :=
  (pySplitAux (s.data.length + 1) s.data pat.data).map (fun cs => ⟨cs⟩)

/-- Join a list of strings with a separator, as Python `sep.join(parts)`. -/
def pyJoin (sep : String) (parts : List String) : String :=
  match parts with
  | [] => ""
  | p :: rest => rest.foldl (fun acc q => acc ++ sep ++ q) p

/-- JSON whitespace accepted between tokens by `json.loads`. -/
def jsonWsChar (c : Char) : Bool :=
  c = ' ' || c = '\t' || c = '\n' || c = '\r'

/-- Skip JSON whitespace. -/
def skipJsonWs (cs : List Char) : List Char := cs.dropWhile jsonWsChar

/-- Value of one hexadecimal digit. -/
def hexVal (c : Char) : Option Nat :=
  if '0' ≤ c ∧ c ≤ '9' then some (c.toNat - '0'.toNat)
  else if 'a' ≤ c ∧ c ≤ 'f' then some (c.toNat - 'a'.toNat + 10)
  else if 'A' ≤ c ∧ c ≤ 'F' then some (c.toNat - 'A'.toNat + 10)
  else none

/-- Parse the body of a JSON string literal after the opening quote,
handling the escape sequences `json.loads` accepts and rejecting
unescaped control characters, as the strict Python decoder does. -/
def parseStrBody (fuel : Nat) (cs : List Char) : Except String (String × List Char) :=
  match fuel, cs with
  | 0, _ => Except.error "Unterminated string starting at"
  | Nat.succ _, [] => Except.error "Unterminated string starting at"
  | Nat.succ fuel, c :: rest =>
      if c = '"' then Except.ok ("", rest)
      else if c = '\\' then
        match rest with
        | [] => Except.error "Unterminated string starting at"
        | e :: rest2 =>
            let step : Except String (Char × List Char) :=
              if e = '"' then Except.ok ('"', rest2)
              else if e = '\\' then Except.ok ('\\', rest2)
              else if e = '/' then Except.ok ('/', rest2)
              else if e = 'b' then Except.ok (Char.ofNat 8, rest2)
              else if e = 'f' then Except.ok (Char.ofNat 12, rest2)
              else if e = 'n' then Except.ok ('\n', rest2)
              else if e = 'r' then Except.ok ('\r', rest2)
              else if e = 't' then Except.ok ('\t', rest2)
              else if e = 'u' then
                match rest2 with
                | h1 :: h2 :: h3 :: h4 :: rest3 =>
                    match hexVal h1, hexVal h2, hexVal h3, hexVal h4 with
                    | some a, some b, some c3, some d =>
                        Except.ok (Char.ofNat (((a * 16 + b) * 16 + c3) * 16 + d), rest3)
                    | _, _, _, _ => Except.error "Invalid \\uXXXX escape"
                | _ => Except.error "Invalid \\uXXXX escape"
              else Except.error "Invalid \\escape"
            match step with
            | Except.ok (ch, rest3) =>
                match parseStrBody fuel rest3 with
                | Except.ok (s, rest4) => Except.ok (⟨ch :: s.data⟩, rest4)
                | Except.error msg => Except.error msg
            | Except.error msg => Except.error msg
      else if c.toNat < 32 then Except.error "Invalid control character"
      else
        match parseStrBody fuel rest with
        | Except.ok (s, rest2) => Except.ok (⟨c :: s.data⟩, rest2)
        | Except.error msg => Except.error msg

/-- Parse a JSON number lexeme: `-? (0 | [1-9][0-9]*) frac? exp?`,
returning the raw lexeme (the pipeline never inspects numeric values). -/
def parseNumber (cs : List Char) : Except String (Json × List Char) :=
  let (sign, cs1) :=
    match cs with
    | '-' :: rest => (['-'], rest)
    | _ => ([], cs)
  match cs1 with
  | [] => Except.error "Expecting value"
  | d :: rest =>
      if !d.isDigit then Except.error "Expecting value"
      else
        let (intPart, cs2) :=
          if d = '0' then ([d], rest)
          else
            let more := rest.takeWhile Char.isDigit
            (d :: more, rest.drop more.length)
        let (fracPart, cs3) :=
          match cs2 with
          | '.' :: f :: rest2 =>
              if f.isDigit then
                let more := rest2.takeWhile Char.isDigit
                ('.' :: f :: more, rest2.drop more.length)
              else ([], cs2)
          | _ => ([], cs2)
        let (expPart, cs4) :=
          match cs3 with
          | e :: rest2 =>
              if e = 'e' || e = 'E' then
                let (esign, rest3) :=
                  match rest2 with
                  | '+' :: r => (['+'], r)
                  | '-' :: r => (['-'], r)
                  | _ => ([], rest2)
                match rest3 with
                | g :: _ =>
                    if g.isDigit then
                      let more := rest3.takeWhile Char.isDigit
                      (e :: esign ++ more, rest3.drop more.length)
                    else ([], cs3)
                | [] => ([], cs3)
              else ([], cs3)
          | [] => ([], cs3)
        Except.ok (Json.num ⟨sign ++ intPart ++ fracPart ++ expPart⟩, cs4)

/-- Insert a key into a Python dict represented as an association list:
an existing key keeps its position and gets the new value, a new key is
appended, matching `dict` insertion semantics. -/
def pyDictSetStr (kvs : List (String × Json)) (k : String) (v : Json) :
    List (String × Json) :=
  match kvs with
  | [] => [(k, v)]
  | (k0, v0) :: rest =>
      if k0 = k then (k0, v) :: rest else (k0, v0) :: pyDictSetStr rest k v

/-- Build a Python dict from parsed key/value pairs in order. -/
def buildDict (pairs : List (String × Json)) : List (String × Json) :=
  pairs.foldl (fun acc kv => pyDictSetStr acc kv.1 kv.2) []

mutual

/-- Parse one JSON value, mirroring the strict `json.loads` grammar. -/
def parseVal (fuel : Nat) (cs : List Char) : Except String (Json × List Char) :=
  match fuel with
  | 0 => Except.error "Expecting value"
  | Nat.succ fuel =>
      let cs := skipJsonWs cs
      match cs with
      | [] => Except.error "Expecting value"
      | c :: rest =>
          if c = '"' then
            match parseStrBody (rest.length + 1) rest with
            | Except.ok (s, rest2) => Except.ok (Json.str s, rest2)
            | Except.error msg => Except.error msg
          else if c = '{' then
            match skipJsonWs rest with
            | '}' :: rest2 => Except.ok (Json.obj [], rest2)
            | cs2 =>
                match parseObjItems fuel cs2 with
                | Except.ok (pairs, rest2) => Except.ok (Json.obj (buildDict pairs), rest2)
                | Except.error msg => Except.error msg
          else if c = '[' then
            match skipJsonWs rest with
            | ']' :: rest2 => Except.ok (Json.arr [], rest2)
            | cs2 =>
                match parseArrItems fuel cs2 with
                | Except.ok (vs, rest2) => Except.ok (Json.arr vs, rest2)
                | Except.error msg => Except.error msg
          else if c = 't' then
            match rest with
            | 'r' :: 'u' :: 'e' :: rest2 => Except.ok (Json.bool true, rest2)
            | _ => Except.error "Expecting value"
          else if c = 'f' then
            match rest with
            | 'a' :: 'l' :: 's' :: 'e' :: rest2 => Except.ok (Json.bool false, rest2)
            | _ => Except.error "Expecting value"
          else if c = 'n' then
            match rest with
            | 'u' :: 'l' :: 'l' :: rest2 => Except.ok (Json.null, rest2)
            | _ => Except.error "Expecting value"
          else if c = '-' || c.isDigit then parseNumber (c :: rest)
          else Except.error "Expecting value"

/-- Parse the comma-separated items of a non-empty JSON array. -/
def parseArrItems (fuel : Nat) (cs : List Char) : Except String (List Json × List Char) :=
  match fuel with
  | 0 => Except.error "Expecting value"
  | Nat.succ fuel =>
      match parseVal fuel cs with
      | Except.error msg => Except.error msg
      | Except.ok (v, rest) =>
          match skipJsonWs rest with
          | ',' :: rest2 =>
              match parseArrItems fuel rest2 with
              | Except.ok (vs, rest3) => Except.ok (v :: vs, rest3)
              | Except.error msg => Except.error msg
          | ']' :: rest2 => Except.ok ([v], rest2)
          | _ => Except.error "Expecting comma delimiter"

/-- Parse the comma-separated members of a non-empty JSON object. -/
def parseObjItems (fuel : Nat) (cs : List Char) : Except String (List (String × Json) × List Char) :=
  match fuel with
  | 0 => Except.error "Expecting value"
  | Nat.succ fuel =>
      match skipJsonWs cs with
      | '"' :: rest =>
          match parseStrBody (rest.length + 1) rest with
          | Except.error msg => Except.error msg
          | Except.ok (k, rest2) =>
              match skipJsonWs rest2 with
              | ':' :: rest3 =>
                  match parseVal fuel rest3 with
                  | Except.error msg => Except.error msg
                  | Except.ok (v, rest4) =>
                      match skipJsonWs rest4 with
                      | ',' :: rest5 =>
                          match parseObjItems fuel rest5 with
                          | Except.ok (kvs, rest6) => Except.ok ((k, v) :: kvs, rest6)
                          | Except.error msg => Except.error msg
                      | '}' :: rest5 => Except.ok ([(k, v)], rest5)
                      | _ => Except.error "Expecting comma delimiter"
              | _ => Except.error "Expecting colon delimiter"
      | _ => Except.error "Expecting property name enclosed in double quotes"

end

/-- Python `json.loads`: parse one JSON document, rejecting trailing
data after the value as the strict decoder does. -/
def jsonLoads (s : String) : Except String Json :=
  match parseVal (s.data.length + 2) s.data with
  | Except.ok (j, rest) =>
      if (skipJsonWs rest).isEmpty then Except.ok j
      else Except.error "Extra data"
  | Except.error msg => Except.error msg

/-- Python `dict.get(k)` on a parsed JSON object (keys are unique by
construction in `buildDict`). -/
def objGet (kvs : List (String × Json)) (k : String) : Option Json :=
  match kvs.find? (fun kv => kv.1 = k) with
  | some kv => some kv.2
  | none => none

/-- Document metadata, from `models/schemas.py` `DocumentMetadata`. -/
structure DocumentMetadata where
  company : String
  year : String
  filing_type : String := "10-K"
  total_pages : Option Int := none
  sections : Option (List String) := none
deriving DecidableEq

/-- Retrievable chunk, from `models/schemas.py` `DocumentChunk`. -/
structure DocumentChunk where
  chunk_id : String
  content : String
  metadata : DocumentMetadata
  page_number : Option Int := none
  «section» : Option String := none
  token_count : Option Int := none
deriving DecidableEq

/-- Citation record, from `models/schemas.py` `Source`.  Similarity
scores are abstracted to integers: no claim computes with score
values, they only flow through the pipeline. -/
structure Source where
  company : String
  year : String
  excerpt : String
  page : Option Int := none
  «section» : Option String := none
  chunk_id : Option String := none
  similarity_score : Option Int := none
deriving DecidableEq

/-- The FAISS flat index: a fixed dimension `d` and the stored rows.
`ntotal` is the row count. -/
structure FaissIndex where
  d : Nat
  vectors : List (List Int)
deriving DecidableEq

/-- In-memory state of `core/vector_store.py` `FAISSVectorStore`:
the optional FAISS index, the parallel chunk-metadata array, and the
cached dimension. -/
structure FAISSVectorStore where
  index : Option FaissIndex
  chunks_metadata : List DocumentChunk
  dimension : Option Nat
deriving DecidableEq

/-- FAISS `Index.add`: appends the rows, after the wrapper has checked
that every row has the index dimension — a mismatch raises before any
mutation of the index. -/
def faissAdd (idx : FaissIndex) (rows : List (List Int)) : Except String FaissIndex :=
  if rows.all (fun r => r.length = idx.d) then
    Except.ok { idx with vectors := idx.vectors ++ rows }
  else
    Except.error "Error in faiss add: vector dimension does not match index"

/-- Truthiness-guarded equality filter from `FAISSVectorStore.search`:
Python `if f and value != f: continue`, so `None` and the empty string
both disable the filter. -/
def truthyEqFilter (f : Option String) (v : String) : Bool :=
  match f with
  | none => true
  | some c => if c = "" then true else v = c

/-- Same truthiness-guarded filter for the optional `section` field:
Python compares `Optional[str] != str`, which only succeeds when the
section is present and equal. -/
def truthyEqOptFilter (f : Option String) (v : Option String) : Bool :=
  match f with
  | none => true
  | some c => if c = "" then true else v = some c

/-- One search candidate kept by the filter loop of
`FAISSVectorStore.search`: the index must be in range (FAISS pads with
`-1`) and the chunk must pass the three truthiness-guarded filters. -/
def keepCandidate (vs : FAISSVectorStore)
    (company_filter year_filter section_filter : Option String)
    (si : Int × Int) : Option (DocumentChunk × Int) :=
  if si.2 < 0 then none
  else
    match vs.chunks_metadata.get? si.2.toNat with
    | none => none
    | some chunk =>
        if truthyEqFilter company_filter chunk.metadata.company &&
           truthyEqFilter year_filter chunk.metadata.year &&
           truthyEqOptFilter section_filter chunk.«section» then
          some (chunk, si.1)
        else none

/-- Embedding of `FAISSVectorStore.search`.  `encode` is the
sentence-transformer oracle and `fsearch` the FAISS nearest-neighbour
kernel oracle returning (score, row-index) pairs; the code requests
`min(k*3, ntotal)` candidates, drops out-of-range indices, applies the
filters and returns the first `k` survivors. -/
def FAISSVectorStore.search (encode : String → List Int)
    (fsearch : FaissIndex → List Int → Nat → List (Int × Int))
    (vs : FAISSVectorStore) (query : String) (k : Nat)
    (company_filter year_filter section_filter : Option String) :
    List (DocumentChunk × Int) :=
  match vs.index with
  | none => []
  | some idx =>
      if idx.vectors.length = 0 then []
      else
        let qe := encode query
        let raw := fsearch idx qe (min (k * 3) idx.vectors.length)
        let results := raw.filterMap (keepCandidate vs company_filter year_filter section_filter)
        results.take k

/-- Embedding of `FAISSVectorStore.add_documents`.  `encode` is the
batch sentence-transformer oracle and `normalize` stands for the
in-place `faiss.normalize_L2`, a shape-preserving numeric map.  The
result is the updated store, or on a FAISS dimension error the state
of the store at the moment the exception was raised (persistence via
`_save_index` is an external collaborator and not modelled). -/
def FAISSVectorStore.add_documents (encode : List String → List (List Int))
    (normalize : List (List Int) → List (List Int))
    (vs : FAISSVectorStore) (chunks : List DocumentChunk) :
    Except (String × FAISSVectorStore) FAISSVectorStore :=
  if chunks.isEmpty then Except.ok vs
  else
    let texts := chunks.map (fun c => c.content)
    let embeddings := normalize (encode texts)
    let init :=
      match vs.index with
      | none =>
          let dimension := (embeddings.headD []).length
          ({ vs with index := some { d := dimension, vectors := [] },
                     dimension := some dimension },
           ({ d := dimension, vectors := [] } : FaissIndex))
      | some idx => (vs, idx)
    match faissAdd init.2 embeddings with
    | Except.ok idx2 =>
        Except.ok { init.1 with index := some idx2,
                                chunks_metadata := init.1.chunks_metadata ++ chunks }
    | Except.error msg => Except.error (msg, init.1)

/-- Embedding of `FAISSVectorStore.chunk_to_source`. -/
def chunk_to_source (chunk : DocumentChunk) (similarity_score : Int) : Source :=
  { company := chunk.metadata.company
    year := chunk.metadata.year
    excerpt := if strLen chunk.content > 200 then strTake chunk.content 200 ++ "..."
               else chunk.content
    page := chunk.page_number
    «section» := chunk.«section»
    chunk_id := some chunk.chunk_id
    similarity_score := some similarity_score }

/-- Serializable search-result record built per hit in
`FinancialAgent._execute_searches`. -/
structure SearchData where
  content : String
  score : Int
  company : String
  year : String
  «section» : Option String
  page : Option Int
deriving DecidableEq

/-- The LangGraph working state of one query, from `financial_agent.py`
`AgentState`.  `sub_queries`, `final_answer` and `reasoning` are typed
as `Json` because the Python code stores whatever `json.loads` or
`dict.get` produced in those slots. -/
structure AgentState where
  query : String
  query_type : String
  sub_queries : Json
  search_results : List (Json × List SearchData)
  final_answer : Json
  reasoning : Json
  sources : List Source
  error : Option String

/-- API response record, from `models/schemas.py` `QueryResponse`. -/
structure QueryResponse where
  query : String
  answer : String
  reasoning : String
  sub_queries : List String
  sources : List Source
  processing_time : Option Int := none

/-- Python `str()` / f-string rendering of a scalar `Json` value.  Dict
keys in `search_results` are always hashable scalars, which is the only
place this rendering is needed. -/
def pyStrScalar (j : Json) : String :=
  match j with
  | Json.str s => s
  | Json.num n => n
  | Json.bool b => if b then "True" else "False"
  | Json.null => "None"
  | Json.arr _ => ""
  | Json.obj _ => ""

/-- Equality of scalar Python values used as dict keys. -/
def jsonScalarEq : Json → Json → Bool
  | Json.null, Json.null => true
  | Json.bool a, Json.bool b => a = b
  | Json.num a, Json.num b => a = b
  | Json.str a, Json.str b => a = b
  | _, _ => false

/-- Replace the value at an existing scalar key (keeping its position)
or append a new entry, matching Python dict assignment. -/
def setScalarKey (sr : List (Json × List SearchData)) (k : Json) (v : List SearchData) :
    List (Json × List SearchData) :=
  match sr with
  | [] => [(k, v)]
  | (k0, v0) :: rest =>
      if jsonScalarEq k0 k then (k0, v) :: rest else (k0, v0) :: setScalarKey rest k v

/-- Python dict assignment `search_results[k] = v`: raises `TypeError`
when the key is unhashable (a list or dict). -/
def pyDictSet (sr : List (Json × List SearchData)) (k : Json) (v : List SearchData) :
    Except String (List (Json × List SearchData)) :=
  match k with
  | Json.arr _ => Except.error "TypeError: unhashable type"
  | Json.obj _ => Except.error "TypeError: unhashable type"
  | _ => Except.ok (setScalarKey sr k v)

/-- Python iteration `for q in x` over a dynamically-typed value:
lists yield their elements, strings their one-character substrings,
dicts their keys; anything else raises `TypeError`. -/
def pyIter : Json → Except String (List Json)
  | Json.arr xs => Except.ok xs
  | Json.str s => Except.ok (s.data.map (fun c => Json.str ⟨[c]⟩))
  | Json.obj kvs => Except.ok (kvs.map (fun kv => Json.str kv.1))
  | _ => Except.error "TypeError: object is not iterable"

/-- Classification prompt of `FinancialAgent._classify_query`. -/
def classificationPrompt (query : String) : String :=
  "\n        Analyze this financial query and classify it as either \"simple\" or \"complex\":\n\n        Query: " ++ query ++ "\n\n        Classification criteria:\n        - Simple: Single company, single metric, single year (e.g., \"What was Microsoft\x27s revenue in 2023?\")\n        - Complex: Multiple companies, comparisons, calculations, or multi-step reasoning required\n\n        Examples:\n        - Simple: \"What was NVIDIA\x27s total revenue in 2023?\"\n        - Complex: \"Which company had the highest operating margin in 2023?\"\n        - Complex: \"How did Microsoft\x27s cloud revenue grow from 2022 to 2023?\"\n\n        Respond with just \"simple\" or \"complex\".\n        "

/-- Decomposition prompt of `FinancialAgent._decompose_query`. -/
def decompositionPrompt (query : String) : String :=
  "\n        Break down this complex financial query into specific sub-queries that can be answered independently:\n\n        Original Query: " ++ query ++ "\n\n        Guidelines:\n        - Create specific, searchable sub-queries\n        - Focus on concrete financial metrics (revenue, margin, etc.)\n        - Include company name and year when possible\n        - For comparisons, create separate queries for each company\n        - For growth calculations, query both years separately\n\n        Examples:\n        Query: \"Which company had the highest operating margin in 2023?\"\n        Sub-queries:\n        1. Microsoft operating margin 2023\n        2. Google operating margin 2023\n        3. NVIDIA operating margin 2023\n\n        Query: \"How did NVIDIA\x27s data center revenue grow from 2022 to 2023?\"\n        Sub-queries:\n        1. NVIDIA data center revenue 2022\n        2. NVIDIA data center revenue 2023\n\n        Respond with a JSON array of sub-queries:\n        [\"sub-query 1\", \"sub-query 2\", ...]\n        "

/-- Synthesis prompt of `FinancialAgent._synthesize_answer`. -/
def synthesisPrompt (query context : String) : String :=
  "You are a financial analyst. Based on the search results, answer the question in JSON format.\n\nQuestion: " ++ query ++ "\n\nSearch Results:\n" ++ context ++ "\n\nInstructions:\n1. Analyze the search results for relevant financial information\n2. Extract specific numbers, percentages, and facts when available\n3. If no relevant data is found, state that clearly\n4. Respond with ONLY valid JSON in this format:\n\n\x7b\"answer\": \"your detailed answer with specific numbers\", \"reasoning\": \"explain how you derived this answer\"\x7d\n\nExample response:\n\x7b\"answer\": \"Microsoft\x27s total revenue in 2023 was $211.9 billion, representing a 7% increase from 2022.\", \"reasoning\": \"This information was found in Microsoft\x27s 2023 10-K filing in the consolidated statements of income section.\"\x7d\n\nIMPORTANT: Return ONLY the JSON object, no other text or formatting."

/-- Embedding of `FinancialAgent._classify_query`.  `llm` is the chat
model oracle: `Except.error` is a raised exception.  Every exception is
caught, so the node is total. -/
def classify_query (llm : String → Except String String) (st : AgentState) : AgentState :=
  match llm (classificationPrompt st.query) with
  | Except.ok resp =>
      let qt := pyLower (pyStrip resp)
      let qt := if qt = "simple" || qt = "complex" then qt else "complex"
      { st with query_type := qt }
  | Except.error e =>
      { st with query_type := "complex", error := some ("Classification error: " ++ e) }

/-- The try-block of `FinancialAgent._decompose_query`: invoke the
model, strip an optional Markdown fence, and `json.loads` the content. -/
def decomposeResult (llm : String → Except String String) (query : String) :
    Except String Json :=
  match llm (decompositionPrompt query) with
  | Except.error e => Except.error e
  | Except.ok resp =>
      let content := pyStrip resp
      let content :=
        if pyStartsWith content "```json" then
          pyStrip (pyReplace (pyReplace content "```json" "") "```" "")
        else content
      jsonLoads content

/-- Embedding of `FinancialAgent._decompose_query`: on any failure the
sub-queries fall back to the single original query and a decomposition
error is recorded; on success the parsed JSON value is stored as-is. -/
def decompose_query (llm : String → Except String String) (st : AgentState) : AgentState :=
  match decomposeResult llm st.query with
  | Except.ok j => { st with sub_queries := j }
  | Except.error e =>
      { st with sub_queries := Json.arr [Json.str st.query],
                error := some ("Decomposition error: " ++ e) }

/-- Search-result record for one retrieved chunk, as built in the loop
of `FinancialAgent._execute_searches`. -/
def mkSearchData (chunk : DocumentChunk) (score : Int) : SearchData :=
  { content := chunk.content
    score := score
    company := chunk.metadata.company
    year := chunk.metadata.year
    «section» := chunk.«section»
    page := chunk.page_number }

/-- The per-sub-query loop of `FinancialAgent._execute_searches`.
`vsearch` is the vector-store call as an oracle over the dynamically
typed query value; a raised search error is caught and that key gets an
empty result list, but a `TypeError` from an unhashable key propagates. -/
def searchLoop (vsearch : Json → Except String (List (DocumentChunk × Int)))
    (queries : List Json)
    (acc : List (Json × List SearchData) × List Source) :
    Except String (List (Json × List SearchData) × List Source) :=
  match queries with
  | [] => Except.ok acc
  | q :: rest =>
      let step : Except String (List (Json × List SearchData) × List Source) :=
        match vsearch q with
        | Except.ok pairs =>
            let sdata := pairs.map (fun p => mkSearchData p.1 p.2)
            let srcs := pairs.map (fun p => chunk_to_source p.1 p.2)
            match pyDictSet acc.1 q sdata with
            | Except.ok sr => Except.ok (sr, acc.2 ++ srcs)
            | Except.error e => Except.error e
        | Except.error _ =>
            match pyDictSet acc.1 q [] with
            | Except.ok sr => Except.ok (sr, acc.2)
            | Except.error e => Except.error e
      match step with
      | Except.ok acc2 => searchLoop vsearch rest acc2
      | Except.error e => Except.error e

/-- Embedding of `FinancialAgent._execute_searches`: the simple path
searches the original query and records it as the sub-query list, the
complex path iterates whatever value decomposition stored. -/
def execute_searches (vsearch : Json → Except String (List (DocumentChunk × Int)))
    (st : AgentState) : Except String AgentState :=
  if st.query_type = "simple" then
    let st1 := { st with sub_queries := Json.arr [Json.str st.query] }
    match searchLoop vsearch [Json.str st.query] ([], []) with
    | Except.ok acc => Except.ok { st1 with search_results := acc.1, sources := acc.2 }
    | Except.error e => Except.error e
  else
    match pyIter st.sub_queries with
    | Except.error e => Except.error e
    | Except.ok queries =>
        match searchLoop vsearch queries ([], []) with
        | Except.ok acc => Except.ok { st with search_results := acc.1, sources := acc.2 }
        | Except.error e => Except.error e

/-- The context lines contributed by one `search_results` entry in
`FinancialAgent._synthesize_answer`: the sub-query label, at most its
top three snippets truncated to 500 characters, and a blank line. -/
def contextEntry (q : Json) (results : List SearchData) : List String :=
  ("Search: " ++ pyStrScalar q) ::
    ((results.take 3).enum.map (fun ir =>
        "Result " ++ toString (ir.1 + 1) ++ ": " ++ strTake ir.2.content 500 ++ "...")
      ++ [""])

/-- The bounded textual context assembled from all search results. -/
def buildContext (sr : List (Json × List SearchData)) : String :=
  pyJoin "\n" (sr.foldl (fun acc p => acc ++ contextEntry p.1 p.2) [])

/-- The response-cleaning chain at the top of the synthesizer try-block:
strip, remove an optional Markdown fence, and the residual fence check
(the last branch is unreachable after the replacements but is translated
faithfully). -/
def cleanResponse (raw : String) : String :=
  let c0 := pyStrip raw
  let c1 :=
    if pyStartsWith c0 "```json" then pyStrip (pyReplace (pyReplace c0 "```json" "") "```" "")
    else if pyStartsWith c0 "```" then pyStrip (pyReplace c0 "```" "")
    else c0
  if pyStartsWith c1 "```" then
    let c2 := if pyContains c1 "```" then ((pySplit c1 "```").getD 1 c1) else c1
    if pyStartsWith c2 "json" then pyStrip (strDrop c2 4) else c2
  else c1

/-- Scan to the first brace character, returning the text before it,
the brace itself and the remaining text, when a brace exists. -/
def spanToBrace (cs : List Char) : Option (List Char × Char × List Char) :=
  match cs with
  | [] => none
  | c :: rest =>
      if c = '{' || c = '}' then some ([], c, rest)
      else
        match spanToBrace rest with
        | some (b, br, a) => some (c :: b, br, a)
        | none => none

/-- Whether a brace-free region contains a quoted `answer` key followed
by a quoted `reasoning` key, as the first fallback regular expression
of the synthesizer requires. -/
def answerReasoningRegion (region : List Char) : Bool :=
  match splitFirst region ("\"answer\"".data) with
  | some (_, after) => listContainsSub after ("\"reasoning\"".data)
  | none => false

/-- Leftmost match of the synthesizer's first fallback pattern: an
opening brace, a brace-free region containing `"answer"` then
`"reasoning"`, and a closing brace. -/
def findObjMatch (cs : List Char) : Option (List Char) :=
  match cs with
  | [] => none
  | c :: rest =>
      if c = '{' then
        match spanToBrace rest with
        | some (region, '}', _) =>
            if answerReasoningRegion region then some ('{' :: (region ++ ['}']))
            else findObjMatch rest
        | _ => findObjMatch rest
      else findObjMatch rest

/-- Leftmost-shortest match of the second fallback pattern: from the
first opening brace to the first closing brace after it. -/
def findBraceSpan (cs : List Char) : Option (List Char) :=
  match cs with
  | [] => none
  | c :: rest =>
      if c = '{' then
        match splitFirst rest ['}'] with
        | some (b, _) => some ('{' :: (b ++ ['}']))
        | none => none
      else findBraceSpan rest

/-- The synthesizer's JSON-substring extraction: first pattern, then
the generic brace-to-brace pattern. -/
def findJsonMatch (content : String) : Option String :=
  match findObjMatch content.data with
  | some m => some ⟨m⟩
  | none =>
      match findBraceSpan content.data with
      | some m => some ⟨m⟩
      | none => none

/-- Python type name of a parsed JSON value, for the `AttributeError`
message raised when `.get` is called on a non-dict. -/
def jsonTypeName : Json → String
  | Json.null => "NoneType"
  | Json.bool _ => "bool"
  | Json.num _ => "int"
  | Json.str _ => "str"
  | Json.arr _ => "list"
  | Json.obj _ => "dict"

/-- Record an error in the state only when none is set, following the
truthiness test `if not state.get("error")`. -/
def setErrorIfUnset (st : AgentState) (msg : String) : Option String :=
  match st.error with
  | none => some msg
  | some e => if e = "" then some msg else some e

/-- The synthesis prompt for a state, with its assembled context. -/
def synthPromptOf (st : AgentState) : String :=
  synthesisPrompt st.query (buildContext st.search_results)

/-- Embedding of `FinancialAgent._synthesize_answer` with its layered
fallback chain: strict parse, substring parse, raw-content fallback,
search-context fallback, and the outer exception handler.  A strict
parse that yields a non-dict raises `AttributeError` at `result.get`,
which only the outer handler catches. -/
def synthesize_answer (llm : String → Except String String) (st : AgentState) : AgentState :=
  match llm (synthPromptOf st) with
  | Except.error e =>
      { st with final_answer := Json.str "Unable to synthesize answer due to processing error",
                reasoning := Json.str ("Synthesis error: " ++ e),
                error := setErrorIfUnset st ("Synthesis error: " ++ e) }
  | Except.ok raw =>
      let content := cleanResponse raw
      match jsonLoads content with
      | Except.ok (Json.obj kvs) =>
          { st with
              final_answer :=
                (objGet kvs "answer").getD
                  (Json.str "Unable to determine answer from available data"),
              reasoning :=
                (objGet kvs "reasoning").getD
                  (Json.str "Analysis based on search results") }
      | Except.ok j =>
          let msg := "Synthesis error: \x27" ++ jsonTypeName j ++
            "\x27 object has no attribute \x27get\x27"
          { st with final_answer := Json.str "Unable to synthesize answer due to processing error",
                    reasoning := Json.str msg,
                    error := setErrorIfUnset st msg }
      | Except.error _ =>
          match findJsonMatch content with
          | some json_str =>
              match jsonLoads json_str with
              | Except.ok (Json.obj kvs) =>
                  { st with
                      final_answer :=
                        (objGet kvs "answer").getD (Json.str "Unable to extract answer"),
                      reasoning :=
                        (objGet kvs "reasoning").getD (Json.str "Extracted from partial JSON") }
              | _ =>
                  if content ≠ "" ∧ strLen (pyStrip content) > 10 then
                    { st with final_answer := Json.str (strTake (pyStrip content) 500),
                              reasoning := Json.str "Direct LLM response (JSON parsing failed)" }
                  else
                    { st with final_answer := Json.str "Unable to generate answer from search results",
                              reasoning := Json.str "No valid response received" }
          | none =>
              if !st.search_results.isEmpty && st.search_results.any (fun p => !p.2.isEmpty) then
                let sample :=
                  match st.search_results.find? (fun p => !p.2.isEmpty) with
                  | some (q, r :: _) =>
                      "From search \x27" ++ pyStrScalar q ++ "\x27: " ++
                        strTake r.content 200 ++ "... "
                  | _ => ""
                { st with final_answer := Json.str ("Based on available data: " ++ sample),
                          reasoning := Json.str "Generated from search results due to synthesis failure" }
              else
                { st with final_answer := Json.str "Unable to find relevant information in the search results",
                          reasoning := Json.str "No search results available for analysis" }

/-- The fresh state built at the top of `FinancialAgent.process_query`. -/
def initialState (q : String) : AgentState :=
  { query := q
    query_type := ""
    sub_queries := Json.arr []
    search_results := []
    final_answer := Json.str ""
    reasoning := Json.str ""
    sources := []
    error := none }

/-- The compiled LangGraph workflow: classify, branch on the label,
optionally decompose, search, synthesize.  An uncaught node exception
propagates out of `invoke`. -/
def runGraph (llm : String → Except String String)
    (vsearch : Json → Except String (List (DocumentChunk × Int)))
    (st : AgentState) : Except String AgentState :=
  let st1 := classify_query llm st
  let st2 := if st1.query_type = "simple" then st1 else decompose_query llm st1
  match execute_searches vsearch st2 with
  | Except.error e => Except.error e
  | Except.ok st3 => Except.ok (synthesize_answer llm st3)

/-- Pydantic validation of a `str` field: any non-string raises a
`ValidationError`. -/
def expectStr (j : Json) : Except String String :=
  match j with
  | Json.str s => Except.ok s
  | _ => Except.error "ValidationError: Input should be a valid string"

/-- Pydantic validation of a `List[str]` field. -/
def expectStrList (j : Json) : Except String (List String) :=
  match j with
  | Json.arr xs => xs.mapM expectStr
  | _ => Except.error "ValidationError: Input should be a valid list"

/-- Constructing the `QueryResponse` from the final graph state, with
pydantic field validation. -/
def mkQueryResponse (q : String) (st : AgentState) : Except String QueryResponse :=
  match expectStr st.final_answer with
  | Except.error e => Except.error e
  | Except.ok answer =>
      match expectStr st.reasoning with
      | Except.error e => Except.error e
      | Except.ok reasoning =>
          match expectStrList st.sub_queries with
          | Except.error e => Except.error e
          | Except.ok subs =>
              Except.ok { query := q, answer := answer, reasoning := reasoning,
                          sub_queries := subs, sources := st.sources }

/-- The try-block of `FinancialAgent.process_query`: run the graph and
build the validated response; either step may raise. -/
def pipelineResult (llm : String → Except String String)
    (vsearch : Json → Except String (List (DocumentChunk × Int)))
    (q : String) : Except String QueryResponse :=
  match runGraph llm vsearch (initialState q) with
  | Except.error e => Except.error e
  | Except.ok fs => mkQueryResponse q fs

/-- Embedding of `FinancialAgent.process_query`: run the graph and build
the response; any exception is caught and turned into the generic
failure response with an empty source list. -/
def process_query (llm : String → Except String String)
    (vsearch : Json → Except String (List (DocumentChunk × Int)))
    (q : String) : QueryResponse :=
  match pipelineResult llm vsearch q with
  | Except.ok r => r
  | Except.error e =>
      { query := q
        answer := "Error processing query: " ++ e
        reasoning := "Processing failed due to system error"
        sub_queries := [q]
        sources := [] }

/-- Whether an `Except` computation raised. -/
def exceptFailed {ε α : Type} : Except ε α → Bool
  | Except.error _ => true
  | Except.ok _ => false

/-- Whether a parse result is a successfully parsed JSON object. -/
def objParseOk : Except String Json → Bool
  | Except.ok (Json.obj _) => true
  | _ => false

/-- Whether the synthesizer can obtain a parsed JSON object from a
model response, either by the strict parse of the cleaned content or by
parsing an extracted JSON-shaped substring. -/
def parsesToObject (resp : String) : Bool :=
  objParseOk (jsonLoads (cleanResponse resp)) ||
    ((findJsonMatch (cleanResponse resp)).elim false (fun s => objParseOk (jsonLoads s)))

/-- A non-empty string stays non-empty after appending. -/
theorem append_ne_empty_left (s t : String) (h : s ≠ "") : s ++ t ≠ "" := by
  intro hc
  apply h
  cases s with
  | mk sd =>
      cases t with
      | mk td =>
          have hd : sd ++ td = ([] : List Char) := congrArg String.data hc
          have : sd = [] := (List.append_eq_nil.mp hd).1
          simp [this]

/-- Python slicing of a string longer than zero with a positive bound is
non-empty. -/
theorem strTake_ne_empty (s : String) (n : Nat) (hn : 0 < n) (hs : 0 < strLen s) :
    strTake s n ≠ "" := by
  intro hc
  have hd : s.data.take n = ([] : List Char) := congrArg String.data hc
  have : min n s.data.length = 0 := by
    simpa [List.length_take] using congrArg List.length hd
  rcases Nat.min_eq_zero_iff.mp this with h | h
  · exact absurd h (Nat.pos_iff_ne_zero.mp hn)
  · exact absurd h (Nat.pos_iff_ne_zero.mp hs)

/-- The classifier never changes the stored query text. -/
theorem classify_query_preserves_query (llm : String → Except String String)
    (st : AgentState) : (classify_query llm st).query = st.query := by
  unfold classify_query
  cases llm (classificationPrompt st.query) <;> rfl

/-- A validated response always carries the query it was built for. -/
theorem mkQueryResponse_query (q : String) (st : AgentState) (r : QueryResponse)
    (h : mkQueryResponse q st = Except.ok r) : r.query = q := by
  unfold mkQueryResponse at h
  cases h1 : expectStr st.final_answer with
  | error e => rw [h1] at h; exact absurd h (by simp)
  | ok answer =>
      rw [h1] at h
      cases h2 : expectStr st.reasoning with
      | error e => rw [h2] at h; exact absurd h (by simp)
      | ok reasoning =>
          rw [h2] at h
          cases h3 : expectStrList st.sub_queries with
          | error e => rw [h3] at h; exact absurd h (by simp)
          | ok subs =>
              rw [h3] at h
              cases h
              rfl

/-- A non-empty company filter that passed forces equality. -/
theorem truthyEqFilter_sound (cv v : String) (hne : cv ≠ "")
    (h : truthyEqFilter (some cv) v = true) : v = cv := by
  simp only [truthyEqFilter] at h
  rw [if_neg hne] at h
  exact of_decide_eq_true h

/-- A non-empty section filter that passed forces equality. -/
theorem truthyEqOptFilter_sound (cv : String) (v : Option String) (hne : cv ≠ "")
    (h : truthyEqOptFilter (some cv) v = true) : v = some cv := by
  simp only [truthyEqOptFilter] at h
  rw [if_neg hne] at h
  exact of_decide_eq_true h


/-- Concrete chunk used by counterexamples and witnesses. -/
def chunkMSFT : DocumentChunk :=
  { chunk_id := "msft-0"
    content := "Microsoft total revenue in 2023 was 211.9 billion dollars."
    metadata := { company := "MSFT", year := "2023" }
    «section» := some "Item 7" }

/-- Concrete one-chunk store used by counterexamples and witnesses. -/
def storeOne : FAISSVectorStore :=
  { index := some { d := 2, vectors := [[1, 0]] }
    chunks_metadata := [chunkMSFT]
    dimension := some 2 }

/-- Concrete embedding oracle used by counterexamples and witnesses. -/
def encodeConst : String → List Int := fun _ => [1, 0]

/-- Concrete FAISS search oracle returning the sole row. -/
def fsearchConst : FaissIndex → List Int → Nat → List (Int × Int) := fun _ _ _ => [(1, 0)]

/-- A store with no index, for the empty-index scenario. -/
def storeEmpty : FAISSVectorStore :=
  { index := none, chunks_metadata := [], dimension := none }

/-- C8: searching against a store whose index is absent or holds zero
vectors returns the empty list for every query, every `k` and every
filter combination, raising no error. -/
theorem search_empty_index (encode : String → List Int)
    (fsearch : FaissIndex → List Int → Nat → List (Int × Int))
    (vs : FAISSVectorStore) (query : String) (k : Nat)
    (cf yf sf : Option String)
    (h : vs.index = none ∨ ∃ idx, vs.index = some idx ∧ idx.vectors.length = 0) :
    FAISSVectorStore.search encode fsearch vs query k cf yf sf = [] := by
  unfold FAISSVectorStore.search
  rcases h with h | ⟨idx, h, hn⟩
  · rw [h]
  · rw [h]
    simp [hn]

/-- Witness for C8: the concrete empty store yields no results. -/
theorem search_empty_index_witness :
    FAISSVectorStore.search encodeConst fsearchConst storeEmpty "any query" 5 none none none = [] :=
  search_empty_index encodeConst fsearchConst storeEmpty "any query" 5 none none none
    (Or.inl rfl)

/-- C6 counterexample: with the company filter supplied as the empty
string, the search returns a chunk whose company is not the empty
string, so a supplied filter predicate is not satisfied (Python
truthiness disables an empty-string filter). -/
theorem filter_soundness_cex :
    (chunkMSFT, (1 : Int)) ∈ FAISSVectorStore.search encodeConst fsearchConst storeOne
        "revenue" 5 (some "") none none ∧ chunkMSFT.metadata.company ≠ "" := by
  refine ⟨?_, by decide⟩
  rw [show FAISSVectorStore.search encodeConst fsearchConst storeOne
      "revenue" 5 (some "") none none = [(chunkMSFT, 1)] from rfl]
  exact List.mem_singleton.mpr rfl

/-- C6 amended: every returned pair of a filtered search satisfies each
supplied NON-EMPTY filter exactly (an empty-string filter is treated as
absent, by Python truthiness), and at most `k` pairs are returned. -/
theorem filter_soundness_amended (encode : String → List Int)
    (fsearch : FaissIndex → List Int → Nat → List (Int × Int))
    (vs : FAISSVectorStore) (query : String) (k : Nat)
    (cf yf sf : Option String) :
    (FAISSVectorStore.search encode fsearch vs query k cf yf sf).length ≤ k ∧
    ∀ c s, (c, s) ∈ FAISSVectorStore.search encode fsearch vs query k cf yf sf →
      (∀ cv, cf = some cv → cv ≠ "" → c.metadata.company = cv) ∧
      (∀ yv, yf = some yv → yv ≠ "" → c.metadata.year = yv) ∧
      (∀ sv, sf = some sv → sv ≠ "" → c.«section» = some sv) := by
  unfold FAISSVectorStore.search
  cases hidx : vs.index with
  | none => exact ⟨Nat.zero_le k, by intro c s h; exact absurd h (List.not_mem_nil _)⟩
  | some idx =>
      dsimp only
      by_cases hz : idx.vectors.length = 0
      · rw [if_pos hz]
        exact ⟨Nat.zero_le k, by intro c s h; exact absurd h (List.not_mem_nil _)⟩
      · rw [if_neg hz]
        constructor
        · calc (((fsearch idx (encode query) (min (k * 3) idx.vectors.length)).filterMap
                (keepCandidate vs cf yf sf)).take k).length
              = min k ((fsearch idx (encode query) (min (k * 3) idx.vectors.length)).filterMap
                (keepCandidate vs cf yf sf)).length := List.length_take k _
            _ ≤ k := Nat.min_le_left _ _
        · intro c s hmem
          have hmem2 : (c, s) ∈ (fsearch idx (encode query) (min (k * 3) idx.vectors.length)).filterMap
              (keepCandidate vs cf yf sf) := List.take_subset k _ hmem
          obtain ⟨si, _, hkeep⟩ := List.mem_filterMap.mp hmem2
          unfold keepCandidate at hkeep
          by_cases hneg : si.2 < 0
          · rw [if_pos hneg] at hkeep
            exact absurd hkeep (by simp)
          · rw [if_neg hneg] at hkeep
            cases hget : vs.chunks_metadata.get? si.2.toNat with
            | none => rw [hget] at hkeep; exact absurd hkeep (by simp)
            | some chunk =>
                rw [hget] at hkeep
                dsimp only at hkeep
                by_cases hflt : (truthyEqFilter cf chunk.metadata.company &&
                    truthyEqFilter yf chunk.metadata.year &&
                    truthyEqOptFilter sf chunk.«section») = true
                · rw [if_pos hflt] at hkeep
                  have hc : chunk = c := congrArg Prod.fst (Option.some.inj hkeep)
                  subst hc
                  have h1 : truthyEqFilter cf chunk.metadata.company = true :=
                    (Bool.and_eq_true_iff.mp ((Bool.and_eq_true_iff.mp hflt).1)).1
                  have h2 : truthyEqFilter yf chunk.metadata.year = true :=
                    (Bool.and_eq_true_iff.mp ((Bool.and_eq_true_iff.mp hflt).1)).2
                  have h3 : truthyEqOptFilter sf chunk.«section» = true :=
                    (Bool.and_eq_true_iff.mp hflt).2
                  refine ⟨?_, ?_, ?_⟩
                  · intro cv hcv hne
                    exact truthyEqFilter_sound cv _ hne (hcv ▸ h1)
                  · intro yv hyv hne
                    exact truthyEqFilter_sound yv _ hne (hyv ▸ h2)
                  · intro sv hsv hne
                    exact truthyEqOptFilter_sound sv _ hne (hsv ▸ h3)
                · rw [if_neg hflt] at hkeep
                  exact absurd hkeep (by simp)

/-- Witness for C6 amended: a non-empty company filter on the concrete
store forces the returned chunk company to equal the filter. -/
theorem filter_soundness_amended_witness :
    chunkMSFT.metadata.company = "MSFT" :=
  ((filter_soundness_amended encodeConst fsearchConst storeOne "revenue" 5
      (some "MSFT") none none).2 chunkMSFT 1
    (by rw [show FAISSVectorStore.search encodeConst fsearchConst storeOne
          "revenue" 5 (some "MSFT") none none = [(chunkMSFT, 1)] from rfl]
        exact List.mem_singleton.mpr rfl)).1 "MSFT" rfl (by decide)


/-- C9: on a store whose dimension is already fixed by an existing
index, an `add_documents` call whose (normalized) embedding rows do not
all match that dimension fails with the FAISS dimension error, and the
error is raised before any mutation: the store carried out of the
failed call is exactly the original store, with its index contents and
its parallel chunk-metadata array unchanged. -/
theorem add_documents_dimension_mismatch
    (encode : List String → List (List Int))
    (normalize : List (List Int) → List (List Int))
    (vs : FAISSVectorStore) (chunks : List DocumentChunk) (idx : FaissIndex)
    (hidx : vs.index = some idx)
    (hne : chunks ≠ [])
    (hmis : (normalize (encode (chunks.map (fun c => c.content)))).all
        (fun r => r.length = idx.d) = false) :
    ∃ msg, FAISSVectorStore.add_documents encode normalize vs chunks =
      Except.error (msg, vs) := by
  unfold FAISSVectorStore.add_documents
  have hne2 : chunks.isEmpty = false := by
    cases chunks with
    | nil => exact absurd rfl hne
    | cons a l => rfl
  rw [hne2]
  simp only [Bool.false_eq_true, if_false]
  rw [hidx]
  dsimp only
  unfold faissAdd
  rw [hmis]
  simp only [Bool.false_eq_true, if_false]
  exact ⟨_, rfl⟩

/-- Witness for C9: adding a three-dimensional row to the concrete
two-dimensional store fails and leaves the store untouched. -/
theorem add_documents_dimension_mismatch_witness :
    ∃ msg, FAISSVectorStore.add_documents (fun _ => [[1, 2, 3]]) (fun rows => rows)
        storeOne [chunkMSFT] = Except.error (msg, storeOne) :=
  add_documents_dimension_mismatch (fun _ => [[1, 2, 3]]) (fun rows => rows)
    storeOne [chunkMSFT] { d := 2, vectors := [[1, 0]] } rfl (by decide) rfl


/-- C7: any classifier response whose stripped, lowercased text is
neither "simple" nor "complex" yields query type "complex", and a
raised call failure also yields "complex" while recording a
classification error; the node is total either way. -/
theorem classifier_default_safety (llm : String → Except String String) (st : AgentState) :
    (∀ resp, llm (classificationPrompt st.query) = Except.ok resp →
      pyLower (pyStrip resp) ≠ "simple" → pyLower (pyStrip resp) ≠ "complex" →
      (classify_query llm st).query_type = "complex") ∧
    (∀ e, llm (classificationPrompt st.query) = Except.error e →
      (classify_query llm st).query_type = "complex" ∧
      (classify_query llm st).error = some ("Classification error: " ++ e)) := by
  constructor
  · intro resp hr h1 h2
    unfold classify_query
    rw [hr]
    dsimp only
    rw [if_neg]
    intro hor
    rcases ((Bool.or_eq_true _ _).mp hor) with h | h
    · exact h1 (of_decide_eq_true h)
    · exact h2 (of_decide_eq_true h)
  · intro e he
    unfold classify_query
    rw [he]
    exact ⟨rfl, rfl⟩

/-- Witness for C7: the response "banana" classifies as "complex". -/
theorem classifier_default_safety_witness :
    (classify_query (fun _ => Except.ok "banana") (initialState "what?")).query_type =
      "complex" :=
  (classifier_default_safety (fun _ => Except.ok "banana") (initialState "what?")).1
    "banana" rfl (by decide) (by decide)

/-- C3: whenever the decomposition try-block fails — a raised model
call or a `json.loads` failure on the (fence-stripped) content — the
sub-queries are exactly the one-element list holding the original
query, a decomposition error is recorded in the state, and the node
returns a state (the pipeline continues). -/
theorem decompose_parse_failure_fallback (llm : String → Except String String)
    (st : AgentState)
    (h : exceptFailed (decomposeResult llm st.query) = true) :
    (decompose_query llm st).sub_queries = Json.arr [Json.str st.query] ∧
    ∃ msg, (decompose_query llm st).error = some ("Decomposition error: " ++ msg) := by
  unfold decompose_query
  cases hd : decomposeResult llm st.query with
  | ok j =>
      rw [hd] at h
      exact absurd h (by simp [exceptFailed])
  | error e =>
      exact ⟨rfl, e, rfl⟩

/-- Witness for C3: a model answering prose instead of JSON triggers
the single-element fallback. -/
theorem decompose_parse_failure_fallback_witness :
    (decompose_query (fun _ => Except.ok "here are some sub-queries")
        (initialState "original question")).sub_queries =
      Json.arr [Json.str "original question"] ∧
    ∃ msg, (decompose_query (fun _ => Except.ok "here are some sub-queries")
        (initialState "original question")).error =
      some ("Decomposition error: " ++ msg) :=
  decompose_parse_failure_fallback (fun _ => Except.ok "here are some sub-queries")
    (initialState "original question") rfl


/-- C10: when the strict parse of the cleaned model response succeeds
with a JSON object, a missing "answer" or "reasoning" member is
silently replaced by its fixed default string, and this is the
successful parse path: the fallback chain is not entered and the state
error field is untouched. -/
theorem missing_fields_default (llm : String → Except String String) (st : AgentState)
    (resp : String) (kvs : List (String × Json))
    (hresp : llm (synthPromptOf st) = Except.ok resp)
    (hparse : jsonLoads (cleanResponse resp) = Except.ok (Json.obj kvs)) :
    ((objGet kvs "answer" = none →
        (synthesize_answer llm st).final_answer =
          Json.str "Unable to determine answer from available data") ∧
     (objGet kvs "reasoning" = none →
        (synthesize_answer llm st).reasoning =
          Json.str "Analysis based on search results") ∧
     (synthesize_answer llm st).error = st.error) := by
  unfold synthesize_answer
  rw [hresp]
  dsimp only
  rw [hparse]
  dsimp only
  refine ⟨?_, ?_, rfl⟩
  · intro h
    rw [h]
    rfl
  · intro h
    rw [h]
    rfl

/-- Witness for C10: the model answering the empty object gets both
default strings. -/
theorem missing_fields_default_witness :
    (synthesize_answer (fun _ => Except.ok "\x7b\x7d") (initialState "q?")).final_answer =
      Json.str "Unable to determine answer from available data" ∧
    (synthesize_answer (fun _ => Except.ok "\x7b\x7d") (initialState "q?")).reasoning =
      Json.str "Analysis based on search results" :=
  And.intro
    ((missing_fields_default (fun _ => Except.ok "\x7b\x7d") (initialState "q?")
        "\x7b\x7d" [] rfl rfl).1 rfl)
    ((missing_fields_default (fun _ => Except.ok "\x7b\x7d") (initialState "q?")
        "\x7b\x7d" [] rfl rfl).2.1 rfl)


/-- C2 counterexample: a model response that is valid JSON with an
explicitly empty "answer" member makes the synthesizer store the empty
string as the final answer, so the stage does not always produce a
non-empty answer. -/
theorem synthesize_answer_empty_string_cex :
    (synthesize_answer (fun _ => Except.ok "\x7b\"answer\": \"\", \"reasoning\": \"\"\x7d")
        (initialState "q?")).final_answer = Json.str "" ∧
    (synthesize_answer (fun _ => Except.ok "\x7b\"answer\": \"\", \"reasoning\": \"\"\x7d")
        (initialState "q?")).reasoning = Json.str "" :=
  And.intro rfl rfl

/-- C2 amended: the synthesizer is a total function of its input (no
exception leaves the stage), it always sets the answer and reasoning
slots, and both are non-empty strings whenever neither the strict
parse nor the substring parse of the model response yields a JSON
object; when a parse does yield an object, the object's own field
values are stored verbatim and may be empty. -/
theorem synthesize_answer_total_amended (llm : String → Except String String)
    (st : AgentState)
    (h : ∀ resp, llm (synthPromptOf st) = Except.ok resp → parsesToObject resp = false) :
    (∃ sa, (synthesize_answer llm st).final_answer = Json.str sa ∧ sa ≠ "") ∧
    (∃ sr, (synthesize_answer llm st).reasoning = Json.str sr ∧ sr ≠ "") := by
  unfold synthesize_answer
  cases hr : llm (synthPromptOf st) with
  | error e =>
      exact ⟨⟨_, rfl, by decide⟩,
        ⟨_, rfl, append_ne_empty_left "Synthesis error: " e (by decide)⟩⟩
  | ok resp =>
      have hp := h resp hr
      unfold parsesToObject at hp
      have h1 : objParseOk (jsonLoads (cleanResponse resp)) = false :=
        (Bool.or_eq_false_iff.mp hp).1
      have h2 : (findJsonMatch (cleanResponse resp)).elim false
          (fun s => objParseOk (jsonLoads s)) = false :=
        (Bool.or_eq_false_iff.mp hp).2
      dsimp only
      split
      · rename_i kvs heq
        rw [heq] at h1
        exact absurd h1 (by simp [objParseOk])
      · rename_i j heq hne
        exact ⟨⟨_, rfl, by decide⟩,
          ⟨_, rfl, append_ne_empty_left _ _
            (append_ne_empty_left "Synthesis error: \x27" (jsonTypeName j) (by decide))⟩⟩
      · split
        · rename_i s2 heq2
          rw [heq2] at h2
          simp only [Option.elim] at h2
          split
          · rename_i kvs heq3
            rw [heq3] at h2
            exact absurd h2 (by simp [objParseOk])
          · split
            · rename_i hcond
              exact ⟨⟨_, rfl, strTake_ne_empty _ 500 (by decide)
                  (Nat.lt_trans (by decide) hcond.2)⟩,
                ⟨_, rfl, by decide⟩⟩
            · exact ⟨⟨_, rfl, by decide⟩, ⟨_, rfl, by decide⟩⟩
        · split
          · refine ⟨⟨_, rfl, append_ne_empty_left "Based on available data: " _ (by decide)⟩,
              ⟨_, rfl, by decide⟩⟩
          · exact ⟨⟨_, rfl, by decide⟩, ⟨_, rfl, by decide⟩⟩

/-- Witness for C2 amended: a raised model call still yields non-empty
answer and reasoning strings. -/
theorem synthesize_answer_total_amended_witness :
    (∃ sa, (synthesize_answer (fun _ => Except.error "call failed")
        (initialState "w")).final_answer = Json.str sa ∧ sa ≠ "") ∧
    (∃ sr, (synthesize_answer (fun _ => Except.error "call failed")
        (initialState "w")).reasoning = Json.str sr ∧ sr ≠ "") :=
  synthesize_answer_total_amended (fun _ => Except.error "call failed")
    (initialState "w") (fun _ hok => Except.noConfusion hok)


/-- A long plain-prose model response with no braces, used to refute
the raw-text fallback claim. -/
def plainResp : String := "This is a plain text answer with no braces at all."

/-- C5 counterexample: on a non-trivial raw response (longer than the
threshold) in which no JSON-shaped substring exists, the synthesizer
does NOT answer with the raw trimmed text — with no search results it
answers the no-information message instead, so the claimed behaviour
fails at this input. -/
theorem raw_response_fallback_cex :
    strLen (pyStrip (cleanResponse plainResp)) > 10 ∧
    exceptFailed (jsonLoads (cleanResponse plainResp)) = true ∧
    findJsonMatch (cleanResponse plainResp) = none ∧
    (synthesize_answer (fun _ => Except.ok plainResp) (initialState "q?")).final_answer =
      Json.str "Unable to find relevant information in the search results" ∧
    (synthesize_answer (fun _ => Except.ok plainResp) (initialState "q?")).final_answer ≠
      Json.str (strTake (pyStrip (cleanResponse plainResp)) 500) := by
  refine ⟨by decide, rfl, rfl, rfl, ?_⟩
  intro hcontra
  rw [show (synthesize_answer (fun _ => Except.ok plainResp)
      (initialState "q?")).final_answer =
      Json.str "Unable to find relevant information in the search results" from rfl] at hcontra
  rw [Json.str.injEq] at hcontra
  exact absurd hcontra (by decide)

/-- C5 amended: the raw trimmed response (bounded to 500 characters,
with the structured-parse-failed reasoning) is used exactly when a
JSON-object-shaped substring IS found but fails to parse as a JSON
object, and the cleaned response is non-empty with more than 10
characters after stripping; when no JSON-shaped substring is found the
synthesizer instead falls back to search context or the no-information
message. -/
theorem raw_response_fallback_amended (llm : String → Except String String)
    (st : AgentState) (resp s2 : String)
    (hresp : llm (synthPromptOf st) = Except.ok resp)
    (hstrict : exceptFailed (jsonLoads (cleanResponse resp)) = true)
    (hmatch : findJsonMatch (cleanResponse resp) = some s2)
    (hsub : objParseOk (jsonLoads s2) = false)
    (hne : cleanResponse resp ≠ "")
    (hlen : strLen (pyStrip (cleanResponse resp)) > 10) :
    (synthesize_answer llm st).final_answer =
      Json.str (strTake (pyStrip (cleanResponse resp)) 500) ∧
    (synthesize_answer llm st).reasoning =
      Json.str "Direct LLM response (JSON parsing failed)" := by
  unfold synthesize_answer
  rw [hresp]
  dsimp only
  cases hj : jsonLoads (cleanResponse resp) with
  | ok j =>
      rw [hj] at hstrict
      exact absurd hstrict (by simp [exceptFailed])
  | error e =>
      dsimp only
      rw [hmatch]
      dsimp only
      split
      · rename_i kvs heq3
        rw [heq3] at hsub
        exact absurd hsub (by simp [objParseOk])
      · rw [if_pos ⟨hne, hlen⟩]
        exact ⟨rfl, rfl⟩

/-- Witness for C5 amended: a brace-wrapped non-JSON response longer
than the threshold is echoed back (trimmed, bounded) as the answer. -/
theorem raw_response_fallback_amended_witness :
    (synthesize_answer (fun _ => Except.ok "\x7bnot valid json here\x7d")
        (initialState "q?")).final_answer =
      Json.str (strTake (pyStrip (cleanResponse "\x7bnot valid json here\x7d")) 500) ∧
    (synthesize_answer (fun _ => Except.ok "\x7bnot valid json here\x7d")
        (initialState "q?")).reasoning =
      Json.str "Direct LLM response (JSON parsing failed)" :=
  raw_response_fallback_amended (fun _ => Except.ok "\x7bnot valid json here\x7d")
    (initialState "q?") "\x7bnot valid json here\x7d" "\x7bnot valid json here\x7d"
    rfl rfl rfl rfl (by decide) (by decide)


/-- A model that classifies every query as complex and decomposes every
query into a well-formed EMPTY JSON array. -/
def llmEmptyDecomp : String → Except String String :=
  fun p => if pyStartsWith p "\n        Break down" then Except.ok "[]"
           else Except.ok "complex"

/-- C4 counterexample: when the decomposition response is the valid
JSON text "[]", parsing succeeds, so after classification (complex) and
decomposition the stored sub-query list is EMPTY — the non-emptiness
invariant fails on a successfully parsed empty array. -/
theorem sub_queries_nonempty_cex :
    (classify_query llmEmptyDecomp (initialState "which is higher?")).query_type =
      "complex" ∧
    (decompose_query llmEmptyDecomp
        (classify_query llmEmptyDecomp (initialState "which is higher?"))).sub_queries =
      Json.arr [] :=
  And.intro rfl rfl

/-- On the simple path, `execute_searches` always succeeds and records
the original query as the only sub-query. -/
theorem execute_searches_simple (vsearch : Json → Except String (List (DocumentChunk × Int)))
    (st : AgentState) (hsimple : st.query_type = "simple") :
    ∃ sr srcs, execute_searches vsearch st =
      Except.ok { st with sub_queries := Json.arr [Json.str st.query],
                          search_results := sr, sources := srcs } := by
  unfold execute_searches
  rw [if_pos hsimple]
  cases hv : vsearch (Json.str st.query) with
  | ok pairs =>
      simp only [searchLoop, hv, pyDictSet, setScalarKey]
      exact ⟨_, _, rfl⟩
  | error e =>
      simp only [searchLoop, hv, pyDictSet, setScalarKey]
      exact ⟨_, _, rfl⟩

/-- C4 amended: the sub-query list is non-empty on the simple path
(where it is set to the one-element original query) and on every
decomposition FAILURE (where it falls back to the one-element original
query); a decomposition parse that succeeds stores the parsed value
as-is, which the counterexample shows may be an empty array. -/
theorem sub_queries_nonempty_amended (llm : String → Except String String)
    (vsearch : Json → Except String (List (DocumentChunk × Int))) (q : String) :
    ((classify_query llm (initialState q)).query_type = "complex" →
      exceptFailed (decomposeResult llm q) = true →
      (decompose_query llm (classify_query llm (initialState q))).sub_queries =
        Json.arr [Json.str q]) ∧
    ((classify_query llm (initialState q)).query_type = "simple" →
      ∀ st', execute_searches vsearch (classify_query llm (initialState q)) =
          Except.ok st' →
        st'.sub_queries = Json.arr [Json.str q]) := by
  have hq : (classify_query llm (initialState q)).query = q :=
    classify_query_preserves_query llm (initialState q)
  constructor
  · intro _ hfail
    unfold decompose_query
    rw [hq]
    cases hd : decomposeResult llm q with
    | ok j =>
        rw [hd] at hfail
        exact absurd hfail (by simp [exceptFailed])
    | error e => rfl
  · intro hsimple st' hexec
    obtain ⟨sr, srcs, heq⟩ := execute_searches_simple vsearch _ hsimple
    rw [heq] at hexec
    injection hexec with hST
    rw [← hST]
    dsimp only
    rw [hq]

/-- A model that classifies every query as complex and fails to produce
JSON on decomposition. -/
def llmDecompFail : String → Except String String :=
  fun p => if pyStartsWith p "\n        Break down" then Except.ok "not json at all"
           else Except.ok "complex"

/-- Witness for C4 amended: the decomposition-failure branch actually
produces the one-element fallback on a concrete run. -/
theorem sub_queries_nonempty_amended_witness :
    (decompose_query llmDecompFail
        (classify_query llmDecompFail (initialState "w"))).sub_queries =
      Json.arr [Json.str "w"] :=
  (sub_queries_nonempty_amended llmDecompFail (fun _ => Except.ok []) "w").1 rfl rfl


/-- C1: for every query and EVERY behaviour of the chat-model and
vector-search collaborators (including raising arbitrary exceptions at
any call), `process_query` returns a complete response record carrying
the original query; either the graph ran to completion and the
validated final state produced the response, or the response is the
generic failure: an error-message answer, the fixed failure reasoning,
the one-element sub-query list and an EMPTY source list.  No exception
escapes the boundary, which the embedding expresses by `process_query`
being a total function into `QueryResponse` while its try-block
`pipelineResult` is `Except`-valued. -/
theorem process_query_never_raises (llm : String → Except String String)
    (vsearch : Json → Except String (List (DocumentChunk × Int))) (q : String) :
    (process_query llm vsearch q).query = q ∧
    ((∃ st, runGraph llm vsearch (initialState q) = Except.ok st ∧
        mkQueryResponse q st = Except.ok (process_query llm vsearch q)) ∨
     ((∃ e, (process_query llm vsearch q).answer = "Error processing query: " ++ e) ∧
      (process_query llm vsearch q).reasoning = "Processing failed due to system error" ∧
      (process_query llm vsearch q).sub_queries = [q] ∧
      (process_query llm vsearch q).sources = [])) := by
  unfold process_query pipelineResult
  cases hg : runGraph llm vsearch (initialState q) with
  | error e =>
      exact ⟨rfl, Or.inr ⟨⟨e, rfl⟩, rfl, rfl, rfl⟩⟩
  | ok fs =>
      dsimp only
      cases hm : mkQueryResponse q fs with
      | error e =>
          exact ⟨rfl, Or.inr ⟨⟨e, rfl⟩, rfl, rfl, rfl⟩⟩
      | ok r =>
          exact ⟨mkQueryResponse_query q fs r hm, Or.inl ⟨fs, rfl, hm⟩⟩

end FinRag
